import Mathlib

/-!
Shallow embedding of `src/app.py` (kasvuruum plant monitor daemon).

Python floats are modelled as exact rationals (`ℚ`); all values appearing in
the spec and the API are exact decimals, and the clamping / addition performed
by the code is exact on them.  Python's special float values (`inf`, `nan`)
are outside the model.

The embedded pieces are:
* the module-level calibration store `state = {'calibration_offset': 0.0}`;
* the module-level sensor initialization `try/except` block (lines 147-154);
* the `GET /data` handler `get_sensor_data` (lines 157-173);
* the `POST /calibrate` handler `set_calibration` (lines 175-184),
  including Python's `float()` coercion of the JSON `offset` value.
-/

namespace Kasvuruum

/-- JSON values as decoded by Flask's `request.get_json()`.  Objects are
modelled at the top level only (as association lists, see `jsonGet`); a
nested value can be null, a boolean, a number, a string, or a compound
value (array or nested object), kept opaque since no handler inspects
its contents. -/
inductive Json where
  | null
  | bool (b : Bool)
  | num (q : ℚ)
  | str (s : String)
  | compound
deriving DecidableEq, Repr

/-- Value of a JSON decimal digit. -/
def digitsToNat (cs : List Char) : ℕ :=
  cs.foldl (fun n c => 10 * n + (c.toNat - 48)) 0

/-- Parse a nonempty all-digit character list as a natural number. -/
def parseUnsignedNat (cs : List Char) : Option ℕ :=
  if cs.isEmpty then none
  else if cs.all Char.isDigit then some (digitsToNat cs) else none

/-- Parse an optionally signed nonempty digit string as an integer
(the exponent part of a Python float literal). -/
def parseSignedInt (cs : List Char) : Option ℤ :=
  match cs with
  | '+' :: rest => (parseUnsignedNat rest).map Int.ofNat
  | '-' :: rest => (parseUnsignedNat rest).map (fun n => -(n : ℤ))
  | _ => (parseUnsignedNat cs).map Int.ofNat

/-- Parse an unsigned decimal mantissa: `digits`, `digits.digits`,
`digits.` or `.digits` (at least one digit overall), as accepted by
Python's `float()`. -/
def parseMantissa (cs : List Char) : Option ℚ :=
  match cs.findIdx? (fun c => c = '.') with
  | none => (parseUnsignedNat cs).map (fun n => (n : ℚ))
  | some i =>
    let intPart := cs.take i
    let fracPart := cs.drop (i + 1)
    if fracPart.contains '.' then none
    else if intPart.isEmpty && fracPart.isEmpty then none
    else if intPart.all Char.isDigit && fracPart.all Char.isDigit then
      some ((digitsToNat intPart : ℚ) +
            (digitsToNat fracPart : ℚ) / (10 : ℚ) ^ fracPart.length)
    else none

/-- Parse an optionally signed decimal mantissa. -/
def parseSignedMantissa (cs : List Char) : Option ℚ :=
  match cs with
  | '+' :: rest => parseMantissa rest
  | '-' :: rest => (parseMantissa rest).map Neg.neg
  | _ => parseMantissa cs

/-- Parse a character list as a Python float literal:
`[sign] mantissa [(e|E) [sign] digits]`. -/
def parseFloatChars (cs : List Char) : Option ℚ :=
  match cs.findIdx? (fun c => c = 'e' || c = 'E') with
  | none => parseSignedMantissa cs
  | some i =>
    match parseSignedMantissa (cs.take i), parseSignedInt (cs.drop (i + 1)) with
    | some m, some z => some (m * (10 : ℚ) ^ z)
    | _, _ => none

/-- Strip leading and trailing whitespace from a character list. -/
def trimChars (cs : List Char) : List Char :=
  ((cs.dropWhile Char.isWhitespace).reverse.dropWhile Char.isWhitespace).reverse

/-- Partial model of Python's `float(s)` on a string, covering plain decimal
literals: ASCII whitespace is stripped, then `[sign] digits [. digits]
[(e|E) [sign] digits]`.  Sound in the positive direction: whenever it
returns `some q`, Python converts `s` to exactly `q`.  `none` only means
`s` is outside this literal subset: Python then raises `ValueError` for
most such strings (e.g. `"abc"`), but does convert some spellings beyond
the subset (underscore-grouped digits such as `"1_5"`, the special
literals `inf`/`infinity`/`nan`, non-ASCII unicode digits); those
conversions are not modelled here — `set_calibration_sem` below abstracts
the true conversion outcome instead. -/
def parseFloatString (s : String) : Option ℚ :=
  parseFloatChars (trimChars s.toList)

/-- Python's `float(x)` applied to a decoded JSON value `x`: numbers
convert to themselves, booleans to `0.0`/`1.0`, and `None`/lists/dicts
raise `TypeError` — these branches are exact.  On strings it inherits
`parseFloatString`, so it is partial there: `some q` guarantees Python
converts to `q`, while `none` only means the string is outside the
modelled literal subset (usually, but not always, a `ValueError`). -/
def pyFloat : Json → Option ℚ
  | Json.num q => some q
  | Json.bool b => some (if b then 1 else 0)
  | Json.str s => parseFloatString s
  | Json.null => none
  | Json.compound => none

/-- Lookup of a key in a decoded JSON object (Python `dict` access). -/
def jsonGet (body : List (String × Json)) (key : String) : Option Json :=
  (body.find? (fun p => p.1 = key)).map Prod.snd

/-- The Python value of `data.get('offset')`, folded through the
`offset is not None` test: a missing key and a JSON `null` value both decode
to Python `None`. -/
def offsetValue (body : List (String × Json)) : Option Json :=
  match jsonGet body "offset" with
  | none => none
  | some Json.null => none
  | some v => some v

/-- Line 182: `max(-10.0, min(10.0, float(offset)))`. -/
def clampOffset (q : ℚ) : ℚ :=
  max (-10) (min 10 q)

/-- Initial value of the calibration store (line 15:
`state = {'calibration_offset': 0.0}`). -/
def initialOffset : ℚ := 0

/-- Outcome of the `POST /calibrate` handler.  `serverError` models an
exception escaping the handler, which Flask turns into an HTTP 500. -/
inductive CalibrateResponse where
  | ok
  | badRequest
  | serverError
deriving DecidableEq, Repr

/-- HTTP status code of each calibrate outcome: `200` for
`{"status": "success"}`, `400` for `{"status": "error"}`, `500` for an
uncaught exception. -/
def httpStatus : CalibrateResponse → ℕ
  | CalibrateResponse.ok => 200
  | CalibrateResponse.badRequest => 400
  | CalibrateResponse.serverError => 500

/-- The `POST /calibrate` handler (lines 175-184), as a function of the
decoded request body and the current stored offset; returns the response
and the new stored offset.  When `float(offset)` raises, the assignment on
line 182 never executes, so the store is unchanged and the exception
escapes the handler.  The string branch of `pyFloat` is partial (see its
doc comment), so this executable model reaches `serverError` only for
offsets outside the modelled literal subset; `set_calibration_sem` below
is the same handler with the `float()` outcome abstracted per call. -/
def set_calibration (body : List (String × Json)) (st : ℚ) :
    CalibrateResponse × ℚ :=
  match offsetValue body with
  | none => (CalibrateResponse.badRequest, st)
  | some v =>
    match pyFloat v with
    | some q => (CalibrateResponse.ok, clampOffset q)
    | none => (CalibrateResponse.serverError, st)

/-- Outcome of the builtin `float(offset)` call on a present offset value,
abstracted per call the way `SensorReads` abstracts the driver calls:
conversion to a finite value, to one of the three non-finite floats, or a
raised exception (`ValueError`/`TypeError`). -/
inductive FloatConvOutcome where
  | val (q : ℚ)
  | posInf
  | negInf
  | nan
  | raise
deriving DecidableEq, Repr

/-- The `POST /calibrate` handler (lines 177-184) over the abstracted
outcome of `data.get('offset')` and `float(offset)`: `none` is a missing
or JSON-`null` offset (Python `None`, line 179's check fails → 400);
`some o` is a present offset whose `float()` call ended as `o`.  On a
finite conversion, line 182 stores the clamped value.  On non-finite
conversions Python's `min`/`max` still evaluate: `min(10.0, inf) = 10.0`
and `min(10.0, nan) = 10.0` (the comparison `nan < 10.0` is false, so
`min` keeps its first argument), giving a stored `10.0`, while
`min(10.0, -inf) = -inf` and `max(-10.0, -inf) = -10.0`.  On a raise the
store is untouched and the exception escapes (HTTP 500). -/
def set_calibration_sem (offset : Option FloatConvOutcome) (st : ℚ) :
    CalibrateResponse × ℚ :=
  match offset with
  | none => (CalibrateResponse.badRequest, st)
  | some (FloatConvOutcome.val q) => (CalibrateResponse.ok, clampOffset q)
  | some FloatConvOutcome.posInf => (CalibrateResponse.ok, 10)
  | some FloatConvOutcome.negInf => (CalibrateResponse.ok, -10)
  | some FloatConvOutcome.nan => (CalibrateResponse.ok, 10)
  | some FloatConvOutcome.raise => (CalibrateResponse.serverError, st)

/-- The two module-level sensor handles (`temp_sensor`, `soil_sensor`);
`none` models Python `None`. -/
def SensorHandles : Type := Option Unit × Option Unit
deriving instance DecidableEq, Repr for SensorHandles

/-- Module-level sensor initialization (lines 147-154): both constructors
run inside one `try`; on any failure the `except` block sets both handles
to `None`.  `tempInitOk` / `soilInitOk` say whether each constructor call
would succeed. -/
def initSensors (tempInitOk soilInitOk : Bool) : SensorHandles :=
  if tempInitOk then
    if soilInitOk then (some (), some ()) else (none, none)
  else (none, none)

/-- The guard `if temp_sensor and soil_sensor:` on line 159. -/
def sensorsReady (s : SensorHandles) : Bool :=
  s.1.isSome && s.2.isSome

/-- One request's worth of raw hardware reads: `temp` is the value of
`temp_sensor.get_temperature()` (`none` if it raises), `moistureActive`
the value of `soil_sensor.is_active` (`none` if it raises).  The two reads
are independent per-call outcomes. -/
structure SensorReads where
  temp : Option ℚ
  moistureActive : Option Bool
deriving DecidableEq, Repr

/-- The JSON body returned by `GET /data`: `none` fields render as JSON
`null`. -/
structure DataResponse where
  temperature : Option ℚ
  is_wet : Option Bool
  calibration_offset : ℚ
deriving DecidableEq, Repr

/-- The `GET /data` handler (lines 157-173).  In hardware mode each read
sits in its own bare `try/except`: a raised read leaves that field `None`
without affecting the other; otherwise `calibrated_temp = raw_temp +
state['calibration_offset']` and `is_wet = not soil_sensor.is_active`.
With either handle `None`, the `else` branch yields the fallback constants
`20.0, False` and the offset is not applied. -/
def get_sensor_data (sensors : SensorHandles) (reads : SensorReads)
    (st : ℚ) : DataResponse :=
  if sensorsReady sensors then
    { temperature := reads.temp.map (fun t => t + st)
      is_wet := reads.moistureActive.map (fun a => !a)
      calibration_offset := st }
  else
    { temperature := some 20
      is_wet := some false
      calibration_offset := st }

/-- The `/data` route always answers HTTP 200 with the handler's body:
both per-read `except` arms are total, so no exception escapes. -/
def dataRoute (sensors : SensorHandles) (reads : SensorReads) (st : ℚ) :
    ℕ × DataResponse :=
  (200, get_sensor_data sensors reads st)

/-- Whole-process state: the sensor handles chosen at import time and the
mutable calibration offset. -/
structure SystemState where
  sensors : SensorHandles
  offset : ℚ
deriving DecidableEq, Repr

/-- One incoming HTTP request to the API. -/
inductive Request where
  | getData (reads : SensorReads)
  | calibrate (body : List (String × Json))
deriving DecidableEq, Repr

/-- Effect of handling one request on the process state: `GET /data` only
reads, `POST /calibrate` replaces the offset with whatever
`set_calibration` leaves in the store. -/
def step (st : SystemState) : Request → SystemState
  | Request.getData _ => st
  | Request.calibrate body =>
    { st with offset := (set_calibration body st.offset).2 }

/-- Process state right after module import. -/
def initState (tempInitOk soilInitOk : Bool) : SystemState :=
  { sensors := initSensors tempInitOk soilInitOk, offset := initialOffset }

/-- Run a sequence of requests from a state. -/
def run (st : SystemState) (reqs : List Request) : SystemState :=
  reqs.foldl step st

/-- The stored-offset range invariant from the spec. -/
def inRange (q : ℚ) : Prop :=
  -10 ≤ q ∧ q ≤ 10

instance (q : ℚ) : Decidable (inRange q) := by
  unfold inRange; infer_instance

/-- Serialized execution of N concurrent `set` calls: under the CPython
GIL, line 182 is a single dict store whose right-hand side is computed
first, so the concurrent calls serialize into some order `inputs`, each
performing one atomic write of its own clamped value. -/
def runSets (init : ℚ) (inputs : List ℚ) : ℚ :=
  inputs.foldl (fun _ o => clampOffset o) init

/-! ## Helper lemmas -/

lemma inRange_clampOffset (q : ℚ) : inRange (clampOffset q) := by
  refine ⟨le_max_left _ _, max_le (by norm_num) (min_le_left _ _)⟩

lemma offsetValue_eq_of_jsonGet {body : List (String × Json)} {o : ℚ}
    (h : jsonGet body "offset" = some (Json.num o)) :
    offsetValue body = some (Json.num o) := by
  unfold offsetValue
  rw [h]

lemma offsetValue_eq_of_jsonGet_str {body : List (String × Json)} {s : String}
    (h : jsonGet body "offset" = some (Json.str s)) :
    offsetValue body = some (Json.str s) := by
  unfold offsetValue
  rw [h]

lemma set_calibration_of_offsetValue_num {body : List (String × Json)}
    {v : Json} {q : ℚ} (st : ℚ) (hv : offsetValue body = some v)
    (hq : pyFloat v = some q) :
    set_calibration body st = (CalibrateResponse.ok, clampOffset q) := by
  simp only [set_calibration, hv, hq]

lemma calibration_offset_get_sensor_data (sensors : SensorHandles)
    (reads : SensorReads) (st : ℚ) :
    (get_sensor_data sensors reads st).calibration_offset = st := by
  unfold get_sensor_data
  by_cases h : sensorsReady sensors = true <;> simp [h]

lemma runSets_mem : ∀ (l : List ℚ) (init : ℚ), l ≠ [] →
    ∃ o ∈ l, runSets init l = clampOffset o := by
  intro l
  induction l with
  | nil => intro init h; exact absurd rfl h
  | cons a l ih =>
    intro init _
    cases l with
    | nil => exact ⟨a, List.mem_singleton_self a, rfl⟩
    | cons b m =>
      obtain ⟨o, ho, he⟩ := ih (clampOffset a) (by simp)
      exact ⟨o, List.mem_cons_of_mem a ho, he⟩

lemma runSets_init_or_mem (l : List ℚ) (init : ℚ) :
    runSets init l = init ∨ ∃ o ∈ l, runSets init l = clampOffset o := by
  cases l with
  | nil => exact Or.inl rfl
  | cons a m => exact Or.inr (runSets_mem (a :: m) init (by simp))

lemma step_sensors (st : SystemState) (req : Request) :
    (step st req).sensors = st.sensors := by
  cases req <;> rfl

lemma run_sensors : ∀ (reqs : List Request) (st : SystemState),
    (run st reqs).sensors = st.sensors := by
  intro reqs
  induction reqs with
  | nil => intro st; rfl
  | cons r rs ih =>
    intro st
    calc (run (step st r) rs).sensors = (step st r).sensors := ih (step st r)
      _ = st.sensors := step_sensors st r

lemma inRange_set_calibration_snd (body : List (String × Json)) {st : ℚ}
    (h : inRange st) : inRange (set_calibration body st).2 := by
  cases hv : offsetValue body with
  | none => simpa only [set_calibration, hv] using h
  | some v =>
    cases hq : pyFloat v with
    | none => simpa only [set_calibration, hv, hq] using h
    | some q => simpa only [set_calibration, hv, hq] using inRange_clampOffset q

lemma inRange_step (st : SystemState) (req : Request)
    (h : inRange st.offset) : inRange (step st req).offset := by
  cases req with
  | getData reads => exact h
  | calibrate body => exact inRange_set_calibration_snd body h

lemma inRange_run : ∀ (reqs : List Request) (st : SystemState),
    inRange st.offset → inRange (run st reqs).offset := by
  intro reqs
  induction reqs with
  | nil => intro st h; exact h
  | cons r rs ih => intro st h; exact ih (step st r) (inRange_step st r h)

/-! ## Claim theorems -/

/-- C1: for every calibrate request whose body carries a numeric `offset`
value `o`, `POST /calibrate` answers `{"status": "success"}` with HTTP 200,
and afterwards the stored offset — as returned by the store and reported as
`calibration_offset` by `GET /data` — equals `max(-10.0, min(10.0, o))`;
out-of-range input is never rejected, only silently clamped. -/
theorem c1_numeric_offset_success_and_clamped
    (body : List (String × Json)) (o st : ℚ)
    (h : jsonGet body "offset" = some (Json.num o)) :
    set_calibration body st = (CalibrateResponse.ok, max (-10) (min 10 o)) ∧
    httpStatus (set_calibration body st).1 = 200 ∧
    ∀ (sensors : SensorHandles) (reads : SensorReads),
      (get_sensor_data sensors reads
          (set_calibration body st).2).calibration_offset
        = max (-10) (min 10 o) := by
  have hv := offsetValue_eq_of_jsonGet h
  have he := set_calibration_of_offsetValue_num st hv
    (rfl : pyFloat (Json.num o) = some o)
  refine ⟨he, by rw [he]; rfl, ?_⟩
  intro sensors reads
  rw [calibration_offset_get_sensor_data, he]
  rfl

/-- C1 witness: the spec's scenario — requested offset `15` is accepted and
clamped to `10.0`, which a subsequent `GET /data` reports. -/
theorem c1_witness :
    set_calibration [("offset", Json.num 15)] 0 = (CalibrateResponse.ok, 10) ∧
    (get_sensor_data (initSensors true true) ⟨some 22, some true⟩
        (set_calibration [("offset", Json.num 15)] 0).2).calibration_offset
      = 10 := by
  obtain ⟨h1, _, h3⟩ := c1_numeric_offset_success_and_clamped
    [("offset", Json.num 15)] 15 0 (by decide)
  constructor
  · rw [h1]; decide
  · rw [h3 (initSensors true true) ⟨some 22, some true⟩]; decide

/-- C2 counterexample: the request body `{"offset": "abc"}` carries a
non-numeric `offset`, yet the handler does not answer HTTP 400 — the
`float(offset)` call raises an uncaught `ValueError`, which surfaces as
HTTP 500. -/
theorem c2_counterexample :
    (set_calibration [("offset", Json.str "abc")] 0).1
        ≠ CalibrateResponse.badRequest ∧
    set_calibration [("offset", Json.str "abc")] 0
        = (CalibrateResponse.serverError, 0) ∧
    httpStatus (set_calibration [("offset", Json.str "abc")] 0).1 = 500 :=
  ⟨by decide, by decide, by decide⟩

/-- C2 (amended): a calibrate request whose `offset` is absent (or JSON
`null`, which decodes to Python `None`) yields HTTP 400 with
`{"status": "error"}` and leaves the store unchanged; a present `offset`
whose `float()` call raises yields an uncaught exception (HTTP 500), also
leaving the store unchanged; a present `offset` that `float()` converts —
finitely or not — yields 200; so the absent/null case (400) and the
raising case (500) are the only non-200 outcomes.  Stated over every
possible outcome of the `float()` call. -/
theorem c2_amended_absent_400_raise_500
    (conv : Option FloatConvOutcome) (st : ℚ) :
    (conv = none →
      set_calibration_sem conv st = (CalibrateResponse.badRequest, st) ∧
      httpStatus (set_calibration_sem conv st).1 = 400) ∧
    (conv = some FloatConvOutcome.raise →
      set_calibration_sem conv st = (CalibrateResponse.serverError, st) ∧
      httpStatus (set_calibration_sem conv st).1 = 500) ∧
    ((∃ o, conv = some o ∧ o ≠ FloatConvOutcome.raise) →
      (set_calibration_sem conv st).1 = CalibrateResponse.ok ∧
      httpStatus (set_calibration_sem conv st).1 = 200) ∧
    (httpStatus (set_calibration_sem conv st).1 ≠ 200 ↔
      conv = none ∨ conv = some FloatConvOutcome.raise) := by
  rcases conv with _ | o
  · simp [set_calibration_sem, httpStatus]
  · cases o <;> simp [set_calibration_sem, httpStatus]

/-- C2 witness: with the store at `5`, a missing offset yields HTTP 400 and
leaves the store unchanged; a raising `float()` call yields the
uncaught-exception outcome with the store unchanged; a finite conversion
(e.g. of the numeric `15`) yields success. -/
theorem c2_amended_witness :
    set_calibration_sem none 5 = (CalibrateResponse.badRequest, 5) ∧
    set_calibration_sem (some FloatConvOutcome.raise) 5
        = (CalibrateResponse.serverError, 5) ∧
    (set_calibration_sem (some (FloatConvOutcome.val 15)) 5).1
        = CalibrateResponse.ok :=
  ⟨((c2_amended_absent_400_raise_500 none 5).1 rfl).1,
   ((c2_amended_absent_400_raise_500 (some FloatConvOutcome.raise) 5).2.1
      rfl).1,
   ((c2_amended_absent_400_raise_500 (some (FloatConvOutcome.val 15)) 5).2.2.1
      ⟨FloatConvOutcome.val 15, rfl, by decide⟩).1⟩

/-- C3: while in fallback mode (sensor initialization failed at startup),
every `GET /data` response has `temperature == 20.0` and `is_wet == false`
for every value of the stored calibration offset: the offset is not added
to the fallback temperature, though it is still reported in the
`calibration_offset` field. -/
theorem c3_fallback_ignores_offset
    (sensors : SensorHandles) (reads : SensorReads) (st : ℚ)
    (h : sensorsReady sensors = false) :
    get_sensor_data sensors reads st =
      { temperature := some 20, is_wet := some false,
        calibration_offset := st } := by
  simp [get_sensor_data, h]

/-- C3 witness: with initialization of the temperature sensor failed and a
stored offset of `7`, `GET /data` still reports temperature `20.0`, dry,
and offset `7`. -/
theorem c3_witness :
    sensorsReady (initSensors false true) = false ∧
    get_sensor_data (initSensors false true) ⟨some 99, some true⟩ 7 =
      { temperature := some 20, is_wet := some false,
        calibration_offset := 7 } :=
  ⟨by decide, c3_fallback_ignores_offset _ _ _ (by decide)⟩

/-- C4: in hardware mode with both reads succeeding, the response
temperature is the raw reading plus the stored offset and `is_wet` is the
negation of the raw moisture-active signal; in particular with offset
`0.0`, raw temperature `22.3` and raw moisture active `true` the response
is `{"temperature": 22.3, "is_wet": false, "calibration_offset": 0.0}`. -/
theorem c4_hardware_success_applies_offset
    (st rawT : ℚ) (rawA : Bool) :
    get_sensor_data (initSensors true true) ⟨some rawT, some rawA⟩ st =
      { temperature := some (rawT + st), is_wet := some (!rawA),
        calibration_offset := st } ∧
    get_sensor_data (initSensors true true) ⟨some (223/10), some true⟩ 0 =
      { temperature := some (223/10), is_wet := some false,
        calibration_offset := 0 } := by
  constructor
  · simp [get_sensor_data, sensorsReady, initSensors]
  · simp [get_sensor_data, sensorsReady, initSensors]

/-- C5: a failed sensor read nulls only its own field — the other field and
`calibration_offset` are still reported — and the `/data` route always
answers HTTP 200; no sensor-level error produces a 5xx. -/
theorem c5_read_failures_isolated_and_http_200
    (st : ℚ) (tr : Option ℚ) (ma : Option Bool)
    (sensors : SensorHandles) (reads : SensorReads) :
    get_sensor_data (initSensors true true) ⟨none, ma⟩ st =
      { temperature := none, is_wet := ma.map (fun a => !a),
        calibration_offset := st } ∧
    get_sensor_data (initSensors true true) ⟨tr, none⟩ st =
      { temperature := tr.map (fun t => t + st), is_wet := none,
        calibration_offset := st } ∧
    (dataRoute sensors reads st).1 = 200 := by
  refine ⟨?_, ?_, rfl⟩
  · simp [get_sensor_data, sensorsReady, initSensors]
  · simp [get_sensor_data, sensorsReady, initSensors]

/-- C6: the stored calibration offset satisfies `-10.0 ≤ offset ≤ 10.0` in
every reachable state: it is `0.0` at startup, every single request
(`GET /data` or any `POST /calibrate` outcome) preserves the bound, and so
every request sequence from startup keeps it. -/
theorem c6_offset_range_invariant
    (t s : Bool) (reqs : List Request) (st : SystemState) (req : Request)
    (h : inRange st.offset) :
    inRange (initState t s).offset ∧
    inRange (step st req).offset ∧
    inRange (run (initState t s) reqs).offset := by
  have h0 : inRange (0 : ℚ) := by decide
  exact ⟨h0, inRange_step st req h, inRange_run reqs (initState t s) h0⟩

/-- C6 witness: one calibrate step from an in-range state stays in range,
and a concrete request sequence from startup (an over-range calibrate
followed by a data read) ends in range. -/
theorem c6_witness :
    inRange (step ⟨(some (), some ()), 3⟩
      (Request.calibrate [("offset", Json.num 15)])).offset ∧
    inRange (run (initState true true)
      [Request.calibrate [("offset", Json.num (-25))],
       Request.getData ⟨some 1, some true⟩]).offset := by
  have h := c6_offset_range_invariant true true
    [Request.calibrate [("offset", Json.num (-25))],
     Request.getData ⟨some 1, some true⟩]
    ⟨(some (), some ()), 3⟩ (Request.calibrate [("offset", Json.num 15)])
    (by decide)
  exact ⟨h.2.1, h.2.2⟩

/-- C7: N concurrent calibrate callers — serialized by the GIL into some
execution order `inputs`, each performing one atomic store of its own
clamped value (line 182 computes the right-hand side first and then does a
single dict store) — leave the store at the clamped value of one of the
inputs, inside `[-10, 10]`; and after any prefix of the writes a concurrent
`get()` observes either the initial value or the clamped value of some
caller's input, never an intermediate or corrupted value. -/
theorem c7_concurrent_sets_linearize
    (init : ℚ) (inputs : List ℚ) (hne : inputs ≠ []) (hinit : inRange init) :
    (∃ o ∈ inputs, runSets init inputs = clampOffset o) ∧
    inRange (runSets init inputs) ∧
    (∀ pre, pre <+: inputs →
      (runSets init pre = init ∨
        ∃ o ∈ inputs, runSets init pre = clampOffset o) ∧
      inRange (runSets init pre)) := by
  obtain ⟨o, ho, he⟩ := runSets_mem inputs init hne
  refine ⟨⟨o, ho, he⟩, by rw [he]; exact inRange_clampOffset o, ?_⟩
  intro pre hpre
  rcases runSets_init_or_mem pre init with h | ⟨p, hp, hep⟩
  · exact ⟨Or.inl h, by rw [h]; exact hinit⟩
  · exact ⟨Or.inr ⟨p, hpre.subset hp, hep⟩,
      by rw [hep]; exact inRange_clampOffset p⟩

/-- C7 witness: three concurrent callers requesting `3`, `25`, `-12`,
serialized in that order, leave the store at the clamped value of one of
the three inputs, inside the range. -/
theorem c7_witness :
    (∃ o ∈ [(3 : ℚ), 25, -12], runSets 0 [3, 25, -12] = clampOffset o) ∧
    inRange (runSets 0 [(3 : ℚ), 25, -12]) := by
  have h := c7_concurrent_sets_linearize 0 [3, 25, -12] (by decide) (by decide)
  exact ⟨h.1, h.2.1⟩

/-- C8: the operating mode is decided exactly once at process start and
never changes: no single request alters the sensor handles, and after any
request sequence from startup they are exactly the handles selected by
initialization, so hardware initialization is never retried. -/
theorem c8_mode_fixed_at_startup
    (t s : Bool) (reqs : List Request) (st : SystemState) (req : Request) :
    (step st req).sensors = st.sensors ∧
    (run (initState t s) reqs).sensors = initSensors t s ∧
    sensorsReady (run (initState t s) reqs).sensors
      = sensorsReady (initSensors t s) := by
  refine ⟨step_sensors st req, run_sensors reqs (initState t s), ?_⟩
  rw [run_sensors reqs (initState t s)]
  rfl

/-- C9: a calibrate request whose `offset` is a string parseable as a float
is accepted — `float(offset)` coerces it — with `{"status": "success"}`
(HTTP 200), and the parsed value clamped to `[-10, 10]` is stored. -/
theorem c9_numeric_string_coerced
    (body : List (String × Json)) (s : String) (q st : ℚ)
    (h : jsonGet body "offset" = some (Json.str s))
    (hq : parseFloatString s = some q) :
    set_calibration body st = (CalibrateResponse.ok, clampOffset q) ∧
    httpStatus (set_calibration body st).1 = 200 := by
  have hv := offsetValue_eq_of_jsonGet_str h
  have he := set_calibration_of_offsetValue_num st hv hq
  exact ⟨he, by rw [he]; rfl⟩

/-- C9 witness: `{"offset": "2.5"}` parses to `5/2` and is accepted and
stored clamped. -/
theorem c9_witness :
    parseFloatString "2.5" = some (5/2) ∧
    set_calibration [("offset", Json.str "2.5")] 0
      = (CalibrateResponse.ok, clampOffset (5/2)) := by
  have e : parseFloatString "2.5"
      = some (((2 : ℕ) : ℚ) + ((5 : ℕ) : ℚ) / 10 ^ (1 : ℕ)) := rfl
  have e2 : parseFloatString "2.5" = some (5/2) := by rw [e]; norm_num
  exact ⟨e2, (c9_numeric_string_coerced _ "2.5" (5/2) 0 (by decide) e2).1⟩

/-- C10: fallback is all-or-nothing: initialization never yields one sensor
handle without the other, and if either constructor fails every `GET /data`
response consists entirely of the fallback constants, for all read
outcomes — no response mixes a hardware-read field with a fallback
field. -/
theorem c10_fallback_all_or_nothing
    (t s : Bool) (reads : SensorReads) (st : ℚ) :
    (initSensors t s).1.isSome = (initSensors t s).2.isSome ∧
    (t = false ∨ s = false →
      get_sensor_data (initSensors t s) reads st =
        { temperature := some 20, is_wet := some false,
          calibration_offset := st }) := by
  constructor
  · cases t <;> cases s <;> rfl
  · intro h
    have hr : sensorsReady (initSensors t s) = false := by
      rcases h with h | h
      · subst h; rfl
      · subst h; cases t <;> rfl
    simp [get_sensor_data, hr]

/-- C10 witness: temperature-sensor initialization succeeded but the soil
sensor's failed; the response is fully fallback even though hardware reads
would have been available. -/
theorem c10_witness :
    get_sensor_data (initSensors true false) ⟨some 31, some false⟩ 2 =
      { temperature := some 20, is_wet := some false,
        calibration_offset := 2 } :=
  (c10_fallback_all_or_nothing true false ⟨some 31, some false⟩ 2).2
    (Or.inr rfl)

end Kasvuruum
